import Mathlib

/-!
# Verification of the CamForge real-time video pipeline and filter engine

Shallow embedding of the pixel codec, the filter kernels, the filter chains,
the scanline downscaler and the pipeline state machine of the CamForge
firmware (`src/filters/FilterChain.hpp`, `src/filters/FilterChainHPC.hpp`,
`src/core/pipeline.cpp`), together with proofs settling the specification
claims about them.

Machine integers are modelled as `Nat`; the C++ expressions involved never
produce negative intermediate values except where noted, and truncating
casts are made explicit (`% 65536` for `uint16_t`).  Pixel buffers are
modelled as `List Nat` (one entry per packed RGB565 pixel) or, for the
coordinate-indexed vignette kernel, as total index functions `Nat → Nat`.
-/

namespace CamForge

/-! ## Pixel codec — `src/filters/FilterChain.hpp` lines 38–46 -/

/-- Red channel of `rgb565_to_rgb888`: `r = ((pixel >> 11) & 0x1F) << 3`. -/
def unpackR (p : Nat) : Nat := ((p >>> 11) &&& 0x1F) <<< 3

/-- Green channel of `rgb565_to_rgb888`: `g = ((pixel >> 5) & 0x3F) << 2`. -/
def unpackG (p : Nat) : Nat := ((p >>> 5) &&& 0x3F) <<< 2

/-- Blue channel of `rgb565_to_rgb888`: `b = (pixel & 0x1F) << 3`. -/
def unpackB (p : Nat) : Nat := (p &&& 0x1F) <<< 3

/-- `rgb565_to_rgb888(pixel, r, g, b)`: unpack a packed RGB565 pixel into
the three 8-bit channels it writes to its out-parameters. -/
def rgb565_to_rgb888 (p : Nat) : Nat × Nat × Nat := (unpackR p, unpackG p, unpackB p)

/-- `rgb888_to_rgb565(r,g,b) = ((r >> 3) << 11) | ((g >> 2) << 5) | (b >> 3)`;
the C++ function returns `uint16_t`, hence the trailing `% 2^16`
(a no-op for 8-bit inputs, as proved below). -/
def rgb888_to_rgb565 (r g b : Nat) : Nat :=
  (((r >>> 3) <<< 11) ||| ((g >>> 2) <<< 5) ||| (b >>> 3)) % 65536

/-! ### Arithmetic characterisation of the codec -/

theorem lor_eq_add {m a b : Nat} (hm : ∃ n, m = 2 ^ n) (ha : m ∣ a) (hb : b < m) :
    a ||| b = a + b := by
  obtain ⟨n, rfl⟩ := hm
  obtain ⟨k, rfl⟩ := ha
  exact (Nat.mul_add_lt_is_or hb k).symm

theorem unpackR_eq (p : Nat) : unpackR p = p / 2048 % 32 * 8 := by
  show ((p >>> 11) &&& (2 ^ 5 - 1)) <<< 3 = p / 2048 % 32 * 8
  rw [Nat.and_pow_two_sub_one_eq_mod, Nat.shiftRight_eq_div_pow, Nat.shiftLeft_eq]

theorem unpackG_eq (p : Nat) : unpackG p = p / 32 % 64 * 4 := by
  show ((p >>> 5) &&& (2 ^ 6 - 1)) <<< 2 = p / 32 % 64 * 4
  rw [Nat.and_pow_two_sub_one_eq_mod, Nat.shiftRight_eq_div_pow, Nat.shiftLeft_eq]

theorem unpackB_eq (p : Nat) : unpackB p = p % 32 * 8 := by
  show (p &&& (2 ^ 5 - 1)) <<< 3 = p % 32 * 8
  rw [Nat.and_pow_two_sub_one_eq_mod, Nat.shiftLeft_eq]

theorem unpackR_le (p : Nat) : unpackR p ≤ 248 := by
  rw [unpackR_eq]; have := Nat.mod_lt (p / 2048) (show 0 < 32 by norm_num); omega

theorem unpackG_le (p : Nat) : unpackG p ≤ 252 := by
  rw [unpackG_eq]; have := Nat.mod_lt (p / 32) (show 0 < 64 by norm_num); omega

theorem unpackB_le (p : Nat) : unpackB p ≤ 248 := by
  rw [unpackB_eq]; have := Nat.mod_lt p (show 0 < 32 by norm_num); omega

theorem pack_eq (r g b : Nat) (hr : r < 256) (hg : g < 256) (hb : b < 256) :
    rgb888_to_rgb565 r g b = 2048 * (r / 8) + 32 * (g / 4) + b / 8 := by
  unfold rgb888_to_rgb565
  rw [Nat.shiftRight_eq_div_pow, Nat.shiftRight_eq_div_pow, Nat.shiftRight_eq_div_pow,
    Nat.shiftLeft_eq, Nat.shiftLeft_eq]
  norm_num
  rw [Nat.lor_assoc]
  rw [lor_eq_add (m := 32) ⟨5, by norm_num⟩ (Dvd.intro_left _ rfl) (by omega)]
  rw [lor_eq_add (m := 2048) ⟨11, by norm_num⟩ (Dvd.intro_left _ rfl) (by omega)]
  have h1 : r / 8 < 32 := by omega
  have h2 : g / 4 < 64 := by omega
  have h3 : b / 8 < 32 := by omega
  rw [Nat.mod_eq_of_lt (by omega)]
  ring

/-- Unpacking then repacking is the identity on 16-bit packed pixels. -/
theorem pack_unpack_id (p : Nat) (hp : p < 65536) :
    rgb888_to_rgb565 (unpackR p) (unpackG p) (unpackB p) = p := by
  rw [pack_eq _ _ _ (by have := unpackR_le p; omega) (by have := unpackG_le p; omega)
    (by have := unpackB_le p; omega), unpackR_eq, unpackG_eq, unpackB_eq]
  omega

/-! ### Masks that are not of the form `2^n - 1` -/

theorem and_248_eq (x : Nat) : x &&& 248 = x / 8 % 32 * 8 := by
  have hd : (x &&& 248) / 8 = x / 8 % 32 := by
    have h1 : (x &&& 248) / 2 = x / 2 &&& 124 := by
      rw [Nat.and_div_two]
    have h2 : (x / 2 &&& 124) / 2 = x / 4 &&& 62 := by
      rw [Nat.and_div_two]; norm_num; rw [Nat.div_div_eq_div_mul]
    have h3 : (x / 4 &&& 62) / 2 = x / 8 &&& 31 := by
      rw [Nat.and_div_two]; norm_num; rw [Nat.div_div_eq_div_mul]
    have h4 : x / 8 &&& 31 = x / 8 % 32 := by
      show x / 8 &&& (2 ^ 5 - 1) = x / 8 % 32
      rw [Nat.and_pow_two_sub_one_eq_mod]
    omega
  have hm0 : (x &&& 248) % 2 = 0 := by
    have := Nat.and_mod_two_eq_one (a := x) (b := 248)
    omega
  have hm1 : (x &&& 248) / 2 % 2 = 0 := by
    rw [Nat.and_div_two]
    have := Nat.and_mod_two_eq_one (a := x / 2) (b := 248 / 2)
    omega
  have hm2 : (x &&& 248) / 4 % 2 = 0 := by
    have h1 : (x &&& 248) / 2 = x / 2 &&& 124 := by rw [Nat.and_div_two]
    have h2 : (x / 2 &&& 124) / 2 = x / 4 &&& 62 := by
      rw [Nat.and_div_two]; norm_num; rw [Nat.div_div_eq_div_mul]
    have := Nat.and_mod_two_eq_one (a := x / 4) (b := 62)
    omega
  omega

theorem and_252_eq (x : Nat) : x &&& 252 = x / 4 % 64 * 4 := by
  have hd : (x &&& 252) / 4 = x / 4 % 64 := by
    have h1 : (x &&& 252) / 2 = x / 2 &&& 126 := by
      rw [Nat.and_div_two]
    have h2 : (x / 2 &&& 126) / 2 = x / 4 &&& 63 := by
      rw [Nat.and_div_two]; norm_num; rw [Nat.div_div_eq_div_mul]
    have h3 : x / 4 &&& 63 = x / 4 % 64 := by
      show x / 4 &&& (2 ^ 6 - 1) = x / 4 % 64
      rw [Nat.and_pow_two_sub_one_eq_mod]
    omega
  have hm0 : (x &&& 252) % 2 = 0 := by
    have := Nat.and_mod_two_eq_one (a := x) (b := 252)
    omega
  have hm1 : (x &&& 252) / 2 % 2 = 0 := by
    rw [Nat.and_div_two]
    have := Nat.and_mod_two_eq_one (a := x / 2) (b := 252 / 2)
    omega
  omega

/-! ## HPC channel extraction — `src/filters/FilterChainHPC.hpp` lines 89–92

The optimized kernels extract the channels with a different (but, as proved
below, equivalent) sequence of shifts and masks. -/

/-- `uint8_t r = (pixel >> 8) & 0xF8;` -/
def hpcR (p : Nat) : Nat := (p >>> 8) &&& 0xF8

/-- `uint8_t g = (pixel >> 3) & 0xFC;` -/
def hpcG (p : Nat) : Nat := (p >>> 3) &&& 0xFC

/-- `uint8_t b = (pixel << 3) & 0xF8;` -/
def hpcB (p : Nat) : Nat := (p <<< 3) &&& 0xF8

theorem hpcR_eq_unpackR (p : Nat) : hpcR p = unpackR p := by
  show (p >>> 8) &&& 248 = unpackR p
  rw [and_248_eq, Nat.shiftRight_eq_div_pow, unpackR_eq]
  norm_num
  rw [Nat.div_div_eq_div_mul]

theorem hpcG_eq_unpackG (p : Nat) : hpcG p = unpackG p := by
  show (p >>> 3) &&& 252 = unpackG p
  rw [and_252_eq, Nat.shiftRight_eq_div_pow, unpackG_eq]
  norm_num
  rw [Nat.div_div_eq_div_mul]

theorem hpcB_eq_unpackB (p : Nat) : hpcB p = unpackB p := by
  show (p <<< 3) &&& 248 = unpackB p
  rw [and_248_eq, Nat.shiftLeft_eq, unpackB_eq]
  norm_num

/-! ## Lookup tables — `src/luts/lut_tables.hpp` (not present under `src/`)

The header `../luts/lut_tables.hpp` included by `FilterChainHPC.hpp` is not
part of the available sources; only its use sites are.  The tables are
therefore modelled from the spec. -/

/-- Modelled from the spec: entry `i` of the missing `lut::GRAY_LUT_R`
(`src/luts/lut_tables.hpp`).  Spec §4.2/§4.8: the optimization variant
replaces the multiplies of `gray = (77·r + 150·g + 29·b) >> 8` with
precomputed per-channel tables; `filter_grayscale_hpc` indexes this table
with the 5-bit red field `r >> 3` and adds the three table reads with no
further shift, so entry `i` holds the pre-shifted red contribution of the
expanded channel `i << 3`. -/
def GRAY_LUT_R (i : Nat) : Nat := ((i <<< 3) * 77) >>> 8

/-- Modelled from the spec: entry `i` of the missing `lut::GRAY_LUT_G`,
indexed with the 6-bit green field `g >> 2`; the pre-shifted green
contribution of the expanded channel `i << 2`. -/
def GRAY_LUT_G (i : Nat) : Nat := ((i <<< 2) * 150) >>> 8

/-- Modelled from the spec: entry `i` of the missing `lut::GRAY_LUT_B`,
indexed with the 5-bit blue field `b >> 3`; the pre-shifted blue
contribution of the expanded channel `i << 3`. -/
def GRAY_LUT_B (i : Nat) : Nat := ((i <<< 3) * 29) >>> 8

/-- Modelled from the spec: entry `i` of the missing `lut::SEPIA_LUT_RR`
(and likewise the other eight sepia tables below).  Spec §4.8: a 9-way
256-entry LUT matrix replaces the nine multiplies of the sepia transform
(`FilterChain.hpp` coefficients scaled by 256: `0.393*r → 101·r >> 8`,
etc.); `filter_sepia_hpc` indexes each table with the full expanded 8-bit
channel and adds three reads per output channel with no further shift, so
entry `i` holds the pre-shifted term `(i * coeff) >> 8`. -/
def SEPIA_LUT_RR (i : Nat) : Nat := (i * 101) >>> 8

/-- Modelled from the spec: `lut::SEPIA_LUT_RG`, see `SEPIA_LUT_RR`. -/
def SEPIA_LUT_RG (i : Nat) : Nat := (i * 197) >>> 8

/-- Modelled from the spec: `lut::SEPIA_LUT_RB`, see `SEPIA_LUT_RR`. -/
def SEPIA_LUT_RB (i : Nat) : Nat := (i * 48) >>> 8

/-- Modelled from the spec: `lut::SEPIA_LUT_GR`, see `SEPIA_LUT_RR`. -/
def SEPIA_LUT_GR (i : Nat) : Nat := (i * 89) >>> 8

/-- Modelled from the spec: `lut::SEPIA_LUT_GG`, see `SEPIA_LUT_RR`. -/
def SEPIA_LUT_GG (i : Nat) : Nat := (i * 176) >>> 8

/-- Modelled from the spec: `lut::SEPIA_LUT_GB`, see `SEPIA_LUT_RR`. -/
def SEPIA_LUT_GB (i : Nat) : Nat := (i * 43) >>> 8

/-- Modelled from the spec: `lut::SEPIA_LUT_BR`, see `SEPIA_LUT_RR`. -/
def SEPIA_LUT_BR (i : Nat) : Nat := (i * 70) >>> 8

/-- Modelled from the spec: `lut::SEPIA_LUT_BG`, see `SEPIA_LUT_RR`. -/
def SEPIA_LUT_BG (i : Nat) : Nat := (i * 137) >>> 8

/-- Modelled from the spec: `lut::SEPIA_LUT_BB`, see `SEPIA_LUT_RR`. -/
def SEPIA_LUT_BB (i : Nat) : Nat := (i * 34) >>> 8

/-- Modelled from the spec: the fast packing helper declared in the missing
`pipeline.hpp`.  Spec §4.1 fixes a single packed-pixel format with one pure
`pack` function, so `rgb888_to_565_fast` is the same packing as
`rgb888_to_rgb565`. -/
def rgb888_to_565_fast (r g b : Nat) : Nat := rgb888_to_rgb565 r g b

/-- Modelled from the spec: the fast unpacking helper declared in the
missing `pipeline.hpp`; by spec §4.1 it is the same unpacking as
`rgb565_to_rgb888`. -/
def rgb565_unpack_fast (p : Nat) : Nat × Nat × Nat := rgb565_to_rgb888 p

/-! ## Grayscale and sepia kernels

`GrayscaleFilter::process` / `SepiaFilter::process`
(`src/filters/FilterChain.hpp` lines 75–111) and the optimized
`filter_grayscale_hpc` / `filter_sepia_hpc`
(`src/filters/FilterChainHPC.hpp` lines 77–148).  Every variant applies
one and the same per-pixel transform to each buffer entry (the 4-wide
chunked main loop of the HPC kernels and their remainder loop perform the
identical per-pixel computation), so each kernel is a `List.map` of its
per-pixel function. -/

/-- The luminance value `uint8_t gray = (r * 77 + g * 150 + b * 29) >> 8`
computed by `GrayscaleFilter::process` from the unpacked channels
(the `uint8_t` cast is a no-op: the value is at most 250). -/
def grayValueCpu (p : Nat) : Nat :=
  (unpackR p * 77 + unpackG p * 150 + unpackB p * 29) >>> 8

/-- Per-pixel body of `GrayscaleFilter::process`:
`data[i] = rgb888_to_rgb565(gray, gray, gray)`. -/
def grayscalePixel (p : Nat) : Nat :=
  rgb888_to_rgb565 (grayValueCpu p) (grayValueCpu p) (grayValueCpu p)

/-- `GrayscaleFilter::process(data, width, height)`: the loop rewrites every
pixel of the buffer in place with `grayscalePixel`. -/
def GrayscaleFilter.process (data : List Nat) : List Nat := data.map grayscalePixel

/-- The LUT-based gray value of `filter_grayscale_hpc`:
`gray = GRAY_LUT_R[r >> 3] + GRAY_LUT_G[g >> 2] + GRAY_LUT_B[b >> 3]`. -/
def grayValueHpc (p : Nat) : Nat :=
  GRAY_LUT_R (hpcR p >>> 3) + GRAY_LUT_G (hpcG p >>> 2) + GRAY_LUT_B (hpcB p >>> 3)

/-- Per-pixel body of `filter_grayscale_hpc`:
`data[i] = rgb888_to_565_fast(gray, gray, gray)`. -/
def grayscalePixelHpc (p : Nat) : Nat :=
  rgb888_to_565_fast (grayValueHpc p) (grayValueHpc p) (grayValueHpc p)

/-- `filter_grayscale_hpc(data, width, height, params)`: the aligned 4-wide
loop and the remainder loop each rewrite every pixel with
`grayscalePixelHpc`. -/
def filter_grayscale_hpc (data : List Nat) : List Nat := data.map grayscalePixelHpc

/-- Red output channel of `SepiaFilter::process` before packing:
`min(255, (r * 101 + g * 197 + b * 48) >> 8)`. -/
def sepiaRCpu (p : Nat) : Nat :=
  min 255 ((unpackR p * 101 + unpackG p * 197 + unpackB p * 48) >>> 8)

/-- Green output channel of `SepiaFilter::process` before packing. -/
def sepiaGCpu (p : Nat) : Nat :=
  min 255 ((unpackR p * 89 + unpackG p * 176 + unpackB p * 43) >>> 8)

/-- Blue output channel of `SepiaFilter::process` before packing. -/
def sepiaBCpu (p : Nat) : Nat :=
  min 255 ((unpackR p * 70 + unpackG p * 137 + unpackB p * 34) >>> 8)

/-- Per-pixel body of `SepiaFilter::process`. -/
def sepiaPixel (p : Nat) : Nat :=
  rgb888_to_rgb565 (sepiaRCpu p) (sepiaGCpu p) (sepiaBCpu p)

/-- `SepiaFilter::process(data, width, height)`. -/
def SepiaFilter.process (data : List Nat) : List Nat := data.map sepiaPixel

/-- Red output channel of `filter_sepia_hpc` before packing:
`int tr = SEPIA_LUT_RR[ri] + SEPIA_LUT_RG[gi] + SEPIA_LUT_RB[bi];`
then `r = tr > 255 ? 255 : (uint8_t)tr`. -/
def sepiaRHpc (p : Nat) : Nat :=
  let t := SEPIA_LUT_RR (hpcR p) + SEPIA_LUT_RG (hpcG p) + SEPIA_LUT_RB (hpcB p)
  if t > 255 then 255 else t

/-- Green output channel of `filter_sepia_hpc` before packing. -/
def sepiaGHpc (p : Nat) : Nat :=
  let t := SEPIA_LUT_GR (hpcR p) + SEPIA_LUT_GG (hpcG p) + SEPIA_LUT_GB (hpcB p)
  if t > 255 then 255 else t

/-- Blue output channel of `filter_sepia_hpc` before packing. -/
def sepiaBHpc (p : Nat) : Nat :=
  let t := SEPIA_LUT_BR (hpcR p) + SEPIA_LUT_BG (hpcG p) + SEPIA_LUT_BB (hpcB p)
  if t > 255 then 255 else t

/-- Per-pixel body of `filter_sepia_hpc`. -/
def sepiaPixelHpc (p : Nat) : Nat :=
  rgb888_to_565_fast (sepiaRHpc p) (sepiaGHpc p) (sepiaBHpc p)

/-- `filter_sepia_hpc(data, width, height, params)`. -/
def filter_sepia_hpc (data : List Nat) : List Nat := data.map sepiaPixelHpc

/-! ## Value-level characterisations of the kernels -/

theorem grayValueCpu_eq (p : Nat) :
    grayValueCpu p = (unpackR p * 77 + unpackG p * 150 + unpackB p * 29) / 256 := by
  unfold grayValueCpu
  rw [Nat.shiftRight_eq_div_pow]

theorem grayValueCpu_lt (p : Nat) : grayValueCpu p < 256 := by
  rw [grayValueCpu_eq]
  have h1 := unpackR_le p
  have h2 := unpackG_le p
  have h3 := unpackB_le p
  omega

theorem pack_fields (a c e : Nat) (ha : a < 32) (hc : c < 64) (he : e < 32) :
    (2048 * a + 32 * c + e) / 2048 % 32 = a ∧
    (2048 * a + 32 * c + e) / 32 % 64 = c ∧
    (2048 * a + 32 * c + e) % 32 = e := by omega

theorem unpack_pack_channels (r g b : Nat) (hr : r < 256) (hg : g < 256) (hb : b < 256) :
    unpackR (rgb888_to_rgb565 r g b) = r / 8 * 8 ∧
    unpackG (rgb888_to_rgb565 r g b) = g / 4 * 4 ∧
    unpackB (rgb888_to_rgb565 r g b) = b / 8 * 8 := by
  rw [pack_eq r g b hr hg hb, unpackR_eq, unpackG_eq, unpackB_eq]
  obtain ⟨h1, h2, h3⟩ := pack_fields (r / 8) (g / 4) (b / 8) (by omega) (by omega) (by omega)
  rw [h1, h2, h3]
  exact ⟨rfl, rfl, rfl⟩

theorem grayValueHpc_eq (p : Nat) :
    grayValueHpc p =
      unpackR p * 77 / 256 + unpackG p * 150 / 256 + unpackB p * 29 / 256 := by
  unfold grayValueHpc GRAY_LUT_R GRAY_LUT_G GRAY_LUT_B
  rw [hpcR_eq_unpackR, hpcG_eq_unpackG, hpcB_eq_unpackB, unpackR_eq, unpackG_eq, unpackB_eq]
  generalize p / 2048 % 32 = a
  generalize p / 32 % 64 = c
  generalize p % 32 = e
  simp only [Nat.shiftRight_eq_div_pow, Nat.shiftLeft_eq]
  have e1 : a * 8 / 2 ^ 3 = a := by omega
  have e2 : c * 4 / 2 ^ 2 = c := by omega
  have e3 : e * 8 / 2 ^ 3 = e := by omega
  rw [e1, e2, e3]

theorem sepiaRHpc_eq (p : Nat) :
    sepiaRHpc p =
      min 255 (unpackR p * 101 / 256 + unpackG p * 197 / 256 + unpackB p * 48 / 256) := by
  unfold sepiaRHpc SEPIA_LUT_RR SEPIA_LUT_RG SEPIA_LUT_RB
  rw [hpcR_eq_unpackR, hpcG_eq_unpackG, hpcB_eq_unpackB]
  simp only [Nat.shiftRight_eq_div_pow]
  split <;> omega

theorem sepiaGHpc_eq (p : Nat) :
    sepiaGHpc p =
      min 255 (unpackR p * 89 / 256 + unpackG p * 176 / 256 + unpackB p * 43 / 256) := by
  unfold sepiaGHpc SEPIA_LUT_GR SEPIA_LUT_GG SEPIA_LUT_GB
  rw [hpcR_eq_unpackR, hpcG_eq_unpackG, hpcB_eq_unpackB]
  simp only [Nat.shiftRight_eq_div_pow]
  split <;> omega

theorem sepiaBHpc_eq (p : Nat) :
    sepiaBHpc p =
      min 255 (unpackR p * 70 / 256 + unpackG p * 137 / 256 + unpackB p * 34 / 256) := by
  unfold sepiaBHpc SEPIA_LUT_BR SEPIA_LUT_BG SEPIA_LUT_BB
  rw [hpcR_eq_unpackR, hpcG_eq_unpackG, hpcB_eq_unpackB]
  simp only [Nat.shiftRight_eq_div_pow]
  split <;> omega

/-! ## Claim C1 — LUT kernels vs multiply kernels -/

/-- C1, counterexample: the optimized (lookup-table) kernels are *not*
byte-identical to the multiply-based kernels.  On the single-pixel buffer
`[34]` (RGB565 for channels `(0, 4, 16)`) the LUT grayscale produces pixel
`0` while the multiply grayscale produces pixel `32`, and on `[33]` the two
sepia kernels likewise disagree: the separately truncated per-channel table
entries lose up to two units against the multiply-then-shift sum. -/
theorem lut_kernels_not_byte_identical :
    filter_grayscale_hpc [34] ≠ GrayscaleFilter.process [34] ∧
    filter_sepia_hpc [33] ≠ SepiaFilter.process [33] := by decide

/-- C1, amended: for every pixel the optimized and non-optimized kernels
agree up to LUT truncation.  Both grayscale kernels write a single gray
value to all three channels; the LUT gray never exceeds the multiply gray
and falls short of it by at most 2.  Each sepia output channel of the LUT
kernel never exceeds the corresponding multiply channel and falls short of
it by at most 2.  (Byte-identical output, as originally claimed, fails —
see the counterexample.) -/
theorem lut_kernels_agree_within_truncation (p : Nat) :
    grayscalePixelHpc p =
      rgb888_to_565_fast (grayValueHpc p) (grayValueHpc p) (grayValueHpc p) ∧
    grayscalePixel p =
      rgb888_to_rgb565 (grayValueCpu p) (grayValueCpu p) (grayValueCpu p) ∧
    grayValueHpc p ≤ grayValueCpu p ∧ grayValueCpu p ≤ grayValueHpc p + 2 ∧
    sepiaRHpc p ≤ sepiaRCpu p ∧ sepiaRCpu p ≤ sepiaRHpc p + 2 ∧
    sepiaGHpc p ≤ sepiaGCpu p ∧ sepiaGCpu p ≤ sepiaGHpc p + 2 ∧
    sepiaBHpc p ≤ sepiaBCpu p ∧ sepiaBCpu p ≤ sepiaBHpc p + 2 := by
  refine ⟨rfl, rfl, ?_, ?_, ?_, ?_, ?_, ?_, ?_, ?_⟩ <;>
    simp only [grayValueHpc_eq, grayValueCpu_eq, sepiaRHpc_eq, sepiaGHpc_eq, sepiaBHpc_eq,
      sepiaRCpu, sepiaGCpu, sepiaBCpu, Nat.shiftRight_eq_div_pow] <;>
    omega

/-! ## Claim C2 — pack/unpack round trip -/

/-- C2: for every 8-bit channel triple `(r,g,b)`, unpacking
`rgb888_to_rgb565 r g b` yields channels that are never larger than the
originals and differ from them by no more than the channel's quantization
step: 8 for the 5-bit red and blue channels, 4 for the 6-bit green channel
(in fact by at most 7 resp. 3). -/
theorem unpack_pack_within_quantization (r g b : Nat)
    (hr : r < 256) (hg : g < 256) (hb : b < 256) :
    unpackR (rgb888_to_rgb565 r g b) ≤ r ∧ r - unpackR (rgb888_to_rgb565 r g b) ≤ 8 ∧
    unpackG (rgb888_to_rgb565 r g b) ≤ g ∧ g - unpackG (rgb888_to_rgb565 r g b) ≤ 4 ∧
    unpackB (rgb888_to_rgb565 r g b) ≤ b ∧ b - unpackB (rgb888_to_rgb565 r g b) ≤ 8 := by
  rw [pack_eq r g b hr hg hb, unpackR_eq, unpackG_eq, unpackB_eq]
  omega

/-- Witness for C2 at `(r,g,b) = (201, 102, 55)`. -/
theorem unpack_pack_within_quantization_witness :
    unpackR (rgb888_to_rgb565 201 102 55) ≤ 201 ∧
      201 - unpackR (rgb888_to_rgb565 201 102 55) ≤ 8 ∧
    unpackG (rgb888_to_rgb565 201 102 55) ≤ 102 ∧
      102 - unpackG (rgb888_to_rgb565 201 102 55) ≤ 4 ∧
    unpackB (rgb888_to_rgb565 201 102 55) ≤ 55 ∧
      55 - unpackB (rgb888_to_rgb565 201 102 55) ≤ 8 :=
  unpack_pack_within_quantization 201 102 55 (by decide) (by decide) (by decide)

/-! ## Claim C3 — grayscale output -/

/-- C3, counterexample: after the grayscale filter a pixel need *not*
satisfy `r == g == b` once the three written channels have gone through
RGB565 quantization.  Input pixel `5` has gray value 4; the output pixel is
`rgb888_to_rgb565 4 4 4 = 32`, which unpacks to `(0, 4, 0)`, so `r ≠ g`. -/
theorem grayscale_channels_not_equal_after_packing :
    unpackR ((GrayscaleFilter.process [5]).getD 0 0) ≠
      unpackG ((GrayscaleFilter.process [5]).getD 0 0) := by decide

/-- C3, amended: the grayscale filter rewrites every pixel (for every input
buffer) with the gray value `gray = (77·r + 150·g + 29·b) >> 8` written to
all three channels before packing; after RGB565 packing the unpacked output
channels satisfy `r = b`, and each channel equals `gray` truncated to its
channel width — `r` and `b` within 7 of `gray`, `g` within 3 of `gray` —
but exact `r == g == b` does not survive the packing (see counterexample). -/
theorem grayscale_writes_gray_to_all_channels (data : List Nat) :
    GrayscaleFilter.process data = data.map grayscalePixel ∧
    ∀ p : Nat,
      grayscalePixel p =
        rgb888_to_rgb565 (grayValueCpu p) (grayValueCpu p) (grayValueCpu p) ∧
      unpackR (grayscalePixel p) = unpackB (grayscalePixel p) ∧
      unpackR (grayscalePixel p) ≤ grayValueCpu p ∧
      grayValueCpu p - unpackR (grayscalePixel p) ≤ 7 ∧
      unpackG (grayscalePixel p) ≤ grayValueCpu p ∧
      grayValueCpu p - unpackG (grayscalePixel p) ≤ 3 := by
  refine ⟨rfl, fun p => ?_⟩
  have hg := grayValueCpu_lt p
  refine ⟨rfl, ?_⟩
  obtain ⟨h1, h2, h3⟩ := unpack_pack_channels (grayValueCpu p) (grayValueCpu p)
    (grayValueCpu p) hg hg hg
  unfold grayscalePixel
  rw [h1, h2, h3]
  omega

/-! ## Scanline downscale — `src/core/pipeline.cpp` lines 259–277

`process_scanline_with_downscale` first nearest-neighbor-samples the source
scanline into the destination buffer and then applies
`process_scanline_chunk` (declared in the missing `pipeline.hpp`) to the
destination; the sampling loop is embedded here as `downscale_scanline`,
and the chunk filter is abstracted as a function parameter.  The source
scanline is a pointer into the frame, modelled as an index function. -/

/-- The fixed-point 16.16 scale factor
`const uint32_t scale = (src_width << 16) / dst_width;`. -/
def downscale_scale (srcWidth dstWidth : Nat) : Nat := (srcWidth <<< 16) / dstWidth

/-- The sampling loop of `process_scanline_with_downscale`:
`for x in [0, dst_width): dst[x] = src[(x * scale) >> 16]`. -/
def downscale_scanline (src : Nat → Nat) (srcWidth dstWidth : Nat) : List Nat :=
  (List.range dstWidth).map fun x => src ((x * downscale_scale srcWidth dstWidth) >>> 16)

/-- `process_scanline_with_downscale(src, src_width, dst, dst_width, filter)`:
downscale, then run the scanline filter chunk over the destination. -/
def process_scanline_with_downscale (chunkFilter : List Nat → List Nat)
    (src : Nat → Nat) (srcWidth dstWidth : Nat) : List Nat :=
  chunkFilter (downscale_scanline src srcWidth dstWidth)

/-! ## Claim C4 — nearest-neighbor downscale sampling -/

/-- C4: for every source scanline and destination width `0 < dstWidth ≤
srcWidth`, the downscale computes `scale = (srcWidth << 16) / dstWidth` and
sets `dst[x] = src[(x*scale) >> 16]` for every `x < dstWidth`; when
`srcWidth = dstWidth` every destination pixel equals the corresponding
source pixel; and a 320-pixel scanline downscaled to 160 destination pixels
samples exactly the source indices `0, 2, 4, …, 318`. -/
theorem downscale_scanline_spec (src : Nat → Nat) (srcWidth dstWidth : Nat)
    (hpos : 0 < dstWidth) (hle : dstWidth ≤ srcWidth) :
    (∀ x, x < dstWidth →
      (downscale_scanline src srcWidth dstWidth)[x]? =
        some (src ((x * ((srcWidth <<< 16) / dstWidth)) >>> 16))) ∧
    (srcWidth = dstWidth →
      downscale_scanline src srcWidth dstWidth = (List.range dstWidth).map src) ∧
    (srcWidth = 320 → dstWidth = 160 →
      downscale_scanline src srcWidth dstWidth =
        (List.range 160).map fun x => src (2 * x)) := by
  refine ⟨?_, ?_, ?_⟩
  · intro x hx
    rw [downscale_scanline, List.getElem?_map, List.getElem?_range hx]
    rfl
  · intro h
    subst h
    rw [downscale_scanline]
    refine List.map_congr_left fun x hx => ?_
    have hscale : downscale_scale srcWidth srcWidth = 65536 := by
      unfold downscale_scale
      rw [Nat.shiftLeft_eq]
      norm_num
      exact Nat.mul_div_cancel_left _ hpos
    rw [hscale, Nat.shiftRight_eq_div_pow]
    norm_num
  · rintro rfl rfl
    rw [downscale_scanline]
    refine List.map_congr_left fun x hx => ?_
    have hscale : downscale_scale 320 160 = 131072 := by decide
    rw [hscale, Nat.shiftRight_eq_div_pow]
    have harg : x * 131072 / 2 ^ 16 = 2 * x := by omega
    rw [harg]

/-- Witness for C4: a 4-pixel scanline downscaled to 2 pixels. -/
theorem downscale_scanline_spec_witness :
    ((∀ x, x < 2 →
      (downscale_scanline (fun i => 100 + i) 4 2)[x]? =
        some ((fun i => 100 + i) ((x * ((4 <<< 16) / 2)) >>> 16))) ∧
    ((4 : Nat) = 2 →
      downscale_scanline (fun i => 100 + i) 4 2 = (List.range 2).map (fun i => 100 + i)) ∧
    ((4 : Nat) = 320 → (2 : Nat) = 160 →
      downscale_scanline (fun i => 100 + i) 4 2 =
        (List.range 160).map fun x => (fun i => 100 + i) (2 * x))) :=
  downscale_scanline_spec (fun i => 100 + i) 4 2 (by decide) (by decide)

/-! ## Vignette filter — `src/filters/FilterChain.hpp` lines 117–158

`VignetteFilter::process` iterates row-major over `y < height`, `x < width`
and rewrites `data[idx]` with `idx = y*width + x`; every index `idx <
width*height` is written exactly once, with `x = idx % width` and
`y = idx / width`.  The buffer is modelled as an index function.
`m_strength_q8` (default 128) is the `strength` parameter. -/

/-- Magnitude of the signed difference: the C++ computes `int dx = x - cx`
and only ever uses `dx * dx`, which equals `|x - cx|²`. -/
def absDiff (a b : Nat) : Nat := max a b - min a b

/-- `int distSq = dx*dx + dy*dy;` with `cx = width >> 1`, `cy = height >> 1`. -/
def VignetteFilter.distSq (w h x y : Nat) : Nat :=
  absDiff x (w >>> 1) * absDiff x (w >>> 1) + absDiff y (h >>> 1) * absDiff y (h >>> 1)

/-- `const int maxDistSq = cx*cx + cy*cy;` -/
def VignetteFilter.maxDistSq (w h : Nat) : Nat :=
  (w >>> 1) * (w >>> 1) + (h >>> 1) * (h >>> 1)

/-- `int factor = 256 - ((distSq * m_strength_q8) / maxDistSq);
if (factor < 0) factor = 0;` — truncated `Nat` subtraction is exactly the
signed computation followed by the clamp at 0.  (For a 1×1 image the C++
divides by zero; Lean's `x / 0 = 0` yields factor 256 there.) -/
def VignetteFilter.factor (strength w h x y : Nat) : Nat :=
  256 - VignetteFilter.distSq w h x y * strength / VignetteFilter.maxDistSq w h

/-- Per-pixel body of `VignetteFilter::process`:
`rgb888_to_rgb565((r*factor)>>8, (g*factor)>>8, (b*factor)>>8)`. -/
def VignetteFilter.pixel (strength w h x y p : Nat) : Nat :=
  rgb888_to_rgb565 ((unpackR p * VignetteFilter.factor strength w h x y) >>> 8)
    ((unpackG p * VignetteFilter.factor strength w h x y) >>> 8)
    ((unpackB p * VignetteFilter.factor strength w h x y) >>> 8)

/-- `VignetteFilter::process(data, width, height)` as a transform of the
index function: the entry at `idx` becomes the vignetted pixel at
coordinates `(idx % width, idx / width)`. -/
def VignetteFilter.process (strength w h : Nat) (data : Nat → Nat) : Nat → Nat :=
  fun idx => VignetteFilter.pixel strength w h (idx % w) (idx / w) (data idx)

theorem vignette_factor_le (strength w h x y : Nat) :
    VignetteFilter.factor strength w h x y ≤ 256 :=
  Nat.sub_le _ _

theorem vignette_pixel_center (strength w h p : Nat) (hp : p < 65536) :
    VignetteFilter.pixel strength w h (w >>> 1) (h >>> 1) p = p := by
  have hd : VignetteFilter.distSq w h (w >>> 1) (h >>> 1) = 0 := by
    unfold VignetteFilter.distSq absDiff
    simp
  have hf : VignetteFilter.factor strength w h (w >>> 1) (h >>> 1) = 256 := by
    unfold VignetteFilter.factor
    rw [hd]
    simp
  unfold VignetteFilter.pixel
  rw [hf]
  have e : ∀ c : Nat, (c * 256) >>> 8 = c := by
    intro c
    rw [Nat.shiftRight_eq_div_pow]
    omega
  rw [e, e, e]
  exact pack_unpack_id p hp

theorem vignette_pixel_le (strength w h x y p : Nat) :
    unpackR (VignetteFilter.pixel strength w h x y p) ≤ unpackR p ∧
    unpackG (VignetteFilter.pixel strength w h x y p) ≤ unpackG p ∧
    unpackB (VignetteFilter.pixel strength w h x y p) ≤ unpackB p := by
  have hf := vignette_factor_le strength w h x y
  have key : ∀ c : Nat, (c * VignetteFilter.factor strength w h x y) >>> 8 ≤ c := by
    intro c
    rw [Nat.shiftRight_eq_div_pow]
    calc c * VignetteFilter.factor strength w h x y / 2 ^ 8
        ≤ c * 256 / 2 ^ 8 := Nat.div_le_div_right (Nat.mul_le_mul_left c hf)
      _ = c := by omega
  have hr := unpackR_le p
  have hg := unpackG_le p
  have hb := unpackB_le p
  have hr2 := key (unpackR p)
  have hg2 := key (unpackG p)
  have hb2 := key (unpackB p)
  obtain ⟨e1, e2, e3⟩ := unpack_pack_channels
    ((unpackR p * VignetteFilter.factor strength w h x y) >>> 8)
    ((unpackG p * VignetteFilter.factor strength w h x y) >>> 8)
    ((unpackB p * VignetteFilter.factor strength w h x y) >>> 8)
    (by omega) (by omega) (by omega)
  unfold VignetteFilter.pixel
  rw [e1, e2, e3]
  omega

/-! ## Claim C5 — vignette center and corners -/

/-- C5, counterexample: a corner pixel after the vignette filter can be
strictly *brighter* than the center pixel.  On a 2×2 buffer whose center
pixel (index 3 = `cy*w + cx`) is black and whose other pixels are white,
the corner at index 0 keeps red channel 120 while the center's red channel
is 0. -/
theorem vignette_corner_brighter_than_center :
    unpackR (VignetteFilter.process 128 2 2 (fun idx => if idx = 3 then 0 else 65535) 0) >
      unpackR (VignetteFilter.process 128 2 2 (fun idx => if idx = 3 then 0 else 65535) 3) := by
  decide

/-- C5, amended: for every input buffer, the pixel at the exact geometric
center `(width >> 1, height >> 1)` (index `cy*width + cx`) is unchanged by
the vignette filter (darkening factor 256), and every pixel — in
particular every corner pixel — has output channels darker than or equal
to *its own* unfiltered channels, never brighter.  (Corner channels need
not be darker than the *center's* channels — see the counterexample.) -/
theorem vignette_center_unchanged_corners_not_brightened (strength w h : Nat)
    (data : Nat → Nat) (hw : 0 < w) (hh : 0 < h)
    (hc : data ((h >>> 1) * w + (w >>> 1)) < 65536) :
    VignetteFilter.process strength w h data ((h >>> 1) * w + (w >>> 1)) =
      data ((h >>> 1) * w + (w >>> 1)) ∧
    ∀ idx : Nat,
      unpackR (VignetteFilter.process strength w h data idx) ≤ unpackR (data idx) ∧
      unpackG (VignetteFilter.process strength w h data idx) ≤ unpackG (data idx) ∧
      unpackB (VignetteFilter.process strength w h data idx) ≤ unpackB (data idx) := by
  constructor
  · have hw2 : w >>> 1 < w := by
      rw [Nat.shiftRight_eq_div_pow]
      omega
    have hmod : ((h >>> 1) * w + (w >>> 1)) % w = w >>> 1 := by
      rw [Nat.add_comm, Nat.add_mul_mod_self_right, Nat.mod_eq_of_lt hw2]
    have hdiv : ((h >>> 1) * w + (w >>> 1)) / w = h >>> 1 := by
      rw [Nat.add_comm, Nat.add_mul_div_right _ _ hw, Nat.div_eq_of_lt hw2]
      omega
    unfold VignetteFilter.process
    rw [hmod, hdiv]
    exact vignette_pixel_center strength w h _ hc
  · intro idx
    exact vignette_pixel_le strength w h (idx % w) (idx / w) (data idx)

/-- Witness for C5 on a uniform 2×2 buffer of pixel 2080. -/
theorem vignette_center_unchanged_corners_not_brightened_witness :
    VignetteFilter.process 128 2 2 (fun _ => 2080) ((2 >>> 1) * 2 + (2 >>> 1)) =
      (fun _ : Nat => (2080 : Nat)) ((2 >>> 1) * 2 + (2 >>> 1)) ∧
    ∀ idx : Nat,
      unpackR (VignetteFilter.process 128 2 2 (fun _ => 2080) idx) ≤
        unpackR ((fun _ : Nat => (2080 : Nat)) idx) ∧
      unpackG (VignetteFilter.process 128 2 2 (fun _ => 2080) idx) ≤
        unpackG ((fun _ : Nat => (2080 : Nat)) idx) ∧
      unpackB (VignetteFilter.process 128 2 2 (fun _ => 2080) idx) ≤
        unpackB ((fun _ : Nat => (2080 : Nat)) idx) :=
  vignette_center_unchanged_corners_not_brightened 128 2 2 (fun _ => 2080)
    (by decide) (by decide) (by decide)

/-! ## Pipeline state machine — `src/core/pipeline.cpp`

The pipeline's global mutable state (`g_pipelineInitialized`,
`g_chunkBuffer`, `g_spiDisplayHandle`, `g_framesProcessed`,
`g_dmaCompletions`) is modelled as an explicit record threaded through the
functions.  Outcomes of the external ESP-IDF calls (`heap_caps_malloc`
inside `SRAMChunkBuffer::init`, `spi_bus_initialize`,
`spi_bus_add_device`, `esp_camera_fb_get`) are inputs of the model. -/

/-- State touched by `init_display_spi_dma`: the SPI bus configuration, the
attached display device handle and the DC GPIO setup. -/
structure SpiBusState where
  busInitialized : Bool
  deviceAdded : Bool
  dcPinConfigured : Bool
  deriving DecidableEq, Repr

/-- The unconfigured bus before any initialization. -/
def SpiBusState.clean : SpiBusState :=
  { busInitialized := false, deviceAdded := false, dcPinConfigured := false }

/-- `init_display_spi_dma()` (`pipeline.cpp` lines 94–146).  `busInitOk`
and `devAddOk` are the outcomes of `spi_bus_initialize` and
`spi_bus_add_device`.  After a successful `spi_bus_initialize`, a failing
`spi_bus_add_device` returns `false` *without* calling `spi_bus_free`, so
the initialized bus stays behind. -/
def init_display_spi_dma (busInitOk devAddOk : Bool) (s : SpiBusState) :
    SpiBusState × Bool :=
  if !busInitOk then (s, false)
  else
    let s1 := { s with busInitialized := true }
    if !devAddOk then (s1, false)
    else ({ s1 with deviceAdded := true, dcPinConfigured := true }, true)

/-- The pipeline's global state: `g_pipelineInitialized`, whether the SRAM
chunk buffers are currently allocated, the SPI bus state, the two counters,
and running totals of how many times the buffers were allocated and the
transport configured (to express "no double allocation"). -/
structure PipelineState where
  initialized : Bool
  chunkBufferAllocated : Bool
  spiBus : SpiBusState
  framesProcessed : Nat
  dmaCompletions : Nat
  allocCount : Nat
  spiConfigCount : Nat
  deriving DecidableEq, Repr

/-- The boot state before `pipeline_init`. -/
def PipelineState.boot : PipelineState :=
  { initialized := false, chunkBufferAllocated := false, spiBus := SpiBusState.clean,
    framesProcessed := 0, dmaCompletions := 0, allocCount := 0, spiConfigCount := 0 }

/-- `pipeline_init()` (`pipeline.cpp` lines 291–317): early-returns `true`
when already initialized; otherwise allocates the SRAM chunk buffers
(`g_chunkBuffer.init()`, outcome `allocOk`), then configures the display
SPI DMA (outcomes `busInitOk`, `devAddOk`), releasing the chunk buffers
again if that fails; on success zeroes the counters and marks the pipeline
initialized. -/
def pipeline_init (allocOk busInitOk devAddOk : Bool) (s : PipelineState) :
    PipelineState × Bool :=
  if s.initialized then (s, true)
  else if !allocOk then (s, false)
  else
    let s1 := { s with chunkBufferAllocated := true, allocCount := s.allocCount + 1 }
    let (bus, ok) := init_display_spi_dma busInitOk devAddOk s1.spiBus
    if !ok then ({ s1 with spiBus := bus, chunkBufferAllocated := false }, false)
    else
      ({ s1 with
          spiBus := bus
          spiConfigCount := s1.spiConfigCount + 1
          initialized := true
          framesProcessed := 0
          dmaCompletions := 0 }, true)

/-- A captured camera frame (`camera_fb_t`): dimensions plus pixel data. -/
structure CameraFrame where
  width : Nat
  height : Nat
  buf : Nat → Nat

/-- `pipeline_process_frame(frame, filter)` (`pipeline.cpp` lines 353–398)
restricted to its effect on the pipeline state: it returns immediately when
the pipeline is uninitialized or the frame is null, and otherwise runs the
scanline loop (which uses blocking `spi_device_polling_transmit`, never
`wait_display_dma_complete`, so `g_dmaCompletions` is untouched) and then
increments `g_framesProcessed`. -/
def pipeline_process_frame (s : PipelineState) (frame : Option CameraFrame) :
    PipelineState :=
  match frame with
  | none => s
  | some _ =>
    if s.initialized then { s with framesProcessed := s.framesProcessed + 1 } else s

/-- `pipeline_process_camera_frame(filter)` (`pipeline.cpp` lines 405–418):
captures a frame (`esp_camera_fb_get`, outcome `captured`); on `null` it
logs and returns, otherwise it processes the frame and releases it
(`esp_camera_fb_return`).  The second component counts the release calls
made during this invocation. -/
def pipeline_process_camera_frame (s : PipelineState) (captured : Option CameraFrame) :
    PipelineState × Nat :=
  match captured with
  | none => (s, 0)
  | some fb => (pipeline_process_frame s (some fb), 1)

/-! ## Claim C6 — null capture skips the frame -/

/-- C6: whenever `esp_camera_fb_get()` returns null,
`pipeline_process_camera_frame` leaves the whole pipeline state — in
particular the frames-processed and DMA-completion counters — unchanged
and performs zero `esp_camera_fb_return` calls. -/
theorem null_capture_skips_frame (s : PipelineState) :
    pipeline_process_camera_frame s none = (s, 0) ∧
    (pipeline_process_camera_frame s none).1.framesProcessed = s.framesProcessed ∧
    (pipeline_process_camera_frame s none).1.dmaCompletions = s.dmaCompletions ∧
    (pipeline_process_camera_frame s none).2 = 0 :=
  ⟨rfl, rfl, rfl, rfl⟩

/-! ## Claim C7 — failed transport init must leave no partial state -/

/-- C7: the code violates the claim.  When `spi_bus_initialize` succeeds
but `spi_bus_add_device` fails, `init_display_spi_dma` returns `false` yet
leaves the SPI bus initialized (`pipeline.cpp` lines 134–138 return without
`spi_bus_free`), so partially-configured bus state remains. -/
theorem init_display_spi_dma_leaks_bus_on_device_failure :
    (init_display_spi_dma true false SpiBusState.clean).2 = false ∧
    (init_display_spi_dma true false SpiBusState.clean).1 ≠ SpiBusState.clean ∧
    (init_display_spi_dma true false SpiBusState.clean).1.busInitialized = true := by
  decide

/-! ## Claim C8 — pipeline_init is idempotent -/

/-- C8: a second `pipeline_init` call without an intervening
`pipeline_deinit` is idempotent: whenever a call succeeded, any further
call returns success and leaves the state — including the buffer-allocation
and transport-configuration totals — exactly unchanged, so nothing is
allocated or configured a second time. -/
theorem pipeline_init_idempotent (a b c a' b' c' : Bool) (s : PipelineState)
    (hok : (pipeline_init a b c s).2 = true) :
    pipeline_init a' b' c' (pipeline_init a b c s).1 = ((pipeline_init a b c s).1, true) ∧
    (pipeline_init a' b' c' (pipeline_init a b c s).1).1.allocCount =
      (pipeline_init a b c s).1.allocCount ∧
    (pipeline_init a' b' c' (pipeline_init a b c s).1).1.spiConfigCount =
      (pipeline_init a b c s).1.spiConfigCount := by
  have hinit : (pipeline_init a b c s).1.initialized = true := by
    unfold pipeline_init init_display_spi_dma at hok ⊢
    rcases s with ⟨i, cb, bus, fp, dc, ac, sc⟩
    cases i <;> cases a <;> cases b <;> cases c <;> simp_all
  have key : pipeline_init a' b' c' (pipeline_init a b c s).1 =
      ((pipeline_init a b c s).1, true) := by
    rw [pipeline_init, hinit]
    simp
  exact ⟨key, by rw [key], by rw [key]⟩

/-- Witness for C8: boot state, all hardware calls succeeding. -/
theorem pipeline_init_idempotent_witness :
    pipeline_init true true true (pipeline_init true true true PipelineState.boot).1 =
      ((pipeline_init true true true PipelineState.boot).1, true) ∧
    (pipeline_init true true true
        (pipeline_init true true true PipelineState.boot).1).1.allocCount =
      (pipeline_init true true true PipelineState.boot).1.allocCount ∧
    (pipeline_init true true true
        (pipeline_init true true true PipelineState.boot).1).1.spiConfigCount =
      (pipeline_init true true true PipelineState.boot).1.spiConfigCount :=
  pipeline_init_idempotent true true true true true true PipelineState.boot (by decide)

/-! ## Filter chains — `src/filters/FilterChain.hpp` lines 254–333 and
`src/filters/FilterChainHPC.hpp` lines 375–451

`FilterChain` holds up to `MAX_FILTERS` pointers to `ImageFilter` objects
(`_filters` array plus `_count`), modelled as a list of filter records; a
filter is its name, its enabled flag, and its virtual `process` method,
modelled as a buffer transform.  `FilterChainHPC` holds `HPCFilter` records
(name, function pointer — possibly null —, parameter pointer folded into
the function, enabled flag). -/

/-- `#define MAX_FILTERS 8` -/
def MAX_FILTERS : Nat := 8

/-- `#define MAX_FILTERS_HPC 8` -/
def MAX_FILTERS_HPC : Nat := 8

/-- An `ImageFilter`: name, `enabled` flag, and the virtual
`process(data, width, height)` override. -/
structure ImageFilter where
  name : String
  enabled : Bool
  proc : List Nat → Nat → Nat → List Nat

/-- The `FilterChain` manager: `_filters[0.._count)` as a list. -/
structure FilterChain where
  filters : List ImageFilter

/-- `FilterChain::FilterChain()`: empty chain. -/
def FilterChain.empty : FilterChain := { filters := [] }

/-- `FilterChain::addFilter`: fails (no mutation) once `_count >=
MAX_FILTERS`, otherwise appends and succeeds. -/
def FilterChain.addFilter (c : FilterChain) (f : ImageFilter) : FilterChain × Bool :=
  if c.filters.length ≥ MAX_FILTERS then (c, false)
  else ({ filters := c.filters ++ [f] }, true)

/-- `FilterChain::clear()`: resets `_count` to 0. -/
def FilterChain.clear (_ : FilterChain) : FilterChain := { filters := [] }

/-- Helper for `FilterChain::toggle`: flip the `enabled` flag of the first
filter with a matching name; report whether one was found. -/
def toggleFirst : List ImageFilter → String → List ImageFilter × Bool
  | [], _ => ([], false)
  | f :: fs, n =>
    if f.name = n then ({ f with enabled := !f.enabled } :: fs, true)
    else
      let r := toggleFirst fs n
      (f :: r.1, r.2)

/-- `FilterChain::toggle(name)`. -/
def FilterChain.toggle (c : FilterChain) (n : String) : FilterChain × Bool :=
  let r := toggleFirst c.filters n
  ({ filters := r.1 }, r.2)

/-- `FilterChain::setEnabled(index, enabled)`: writes the flag when the
index is valid, otherwise changes nothing. -/
def FilterChain.setEnabled (c : FilterChain) (i : Nat) (e : Bool) : FilterChain :=
  { filters := c.filters.mapIdx fun j f => if j = i then { f with enabled := e } else f }

/-- `FilterChain::process(data, width, height)`: runs the enabled filters
in insertion order, skipping disabled ones. -/
def FilterChain.process (c : FilterChain) (data : List Nat) (w h : Nat) : List Nat :=
  c.filters.foldl (fun d f => if f.enabled then f.proc d w h else d) data

/-- An `HPCFilter` record: name, function pointer (null modelled as
`none`), parameters folded into the function, `enabled` flag. -/
structure HPCFilter where
  name : String
  func : Option (List Nat → Nat → Nat → List Nat)
  enabled : Bool

/-- The `FilterChainHPC` manager. -/
structure FilterChainHPC where
  filters : List HPCFilter

/-- `FilterChainHPC::FilterChainHPC()`: empty chain. -/
def FilterChainHPC.empty : FilterChainHPC := { filters := [] }

/-- `FilterChainHPC::addFilter(name, func, params)`: fails once `_count >=
MAX_FILTERS_HPC`, otherwise appends an enabled entry and succeeds. -/
def FilterChainHPC.addFilter (c : FilterChainHPC) (f : HPCFilter) :
    FilterChainHPC × Bool :=
  if c.filters.length ≥ MAX_FILTERS_HPC then (c, false)
  else ({ filters := c.filters ++ [f] }, true)

/-- `FilterChainHPC::clear()`. -/
def FilterChainHPC.clear (_ : FilterChainHPC) : FilterChainHPC := { filters := [] }

/-- Helper for `FilterChainHPC::toggle`. -/
def toggleFirstHpc : List HPCFilter → String → List HPCFilter × Bool
  | [], _ => ([], false)
  | f :: fs, n =>
    if f.name = n then ({ f with enabled := !f.enabled } :: fs, true)
    else
      let r := toggleFirstHpc fs n
      (f :: r.1, r.2)

/-- `FilterChainHPC::toggle(name)`. -/
def FilterChainHPC.toggle (c : FilterChainHPC) (n : String) : FilterChainHPC × Bool :=
  let r := toggleFirstHpc c.filters n
  ({ filters := r.1 }, r.2)

/-- `FilterChainHPC::setEnabled(index, enabled)`. -/
def FilterChainHPC.setEnabled (c : FilterChainHPC) (i : Nat) (e : Bool) : FilterChainHPC :=
  { filters := c.filters.mapIdx fun j f => if j = i then { f with enabled := e } else f }

/-- `FilterChainHPC::process(data, width, height)`: runs each filter whose
`enabled` flag is set and whose function pointer is non-null. -/
def FilterChainHPC.process (c : FilterChainHPC) (data : List Nat) (w h : Nat) :
    List Nat :=
  c.filters.foldl
    (fun d f => match f.func with
      | some fn => if f.enabled then fn d w h else d
      | none => d)
    data

/-- The chain mutations exposed by `FilterChain`. -/
inductive ChainOp where
  | add (f : ImageFilter)
  | clear
  | toggle (n : String)
  | setEnabled (i : Nat) (e : Bool)

/-- Apply one `ChainOp` to a `FilterChain`. -/
def applyChainOp (c : FilterChain) : ChainOp → FilterChain
  | .add f => (c.addFilter f).1
  | .clear => c.clear
  | .toggle n => (c.toggle n).1
  | .setEnabled i e => c.setEnabled i e

/-- Apply a sequence of `ChainOp`s from left to right. -/
def applyChainOps (c : FilterChain) (ops : List ChainOp) : FilterChain :=
  ops.foldl applyChainOp c

/-- The chain mutations exposed by `FilterChainHPC`. -/
inductive HpcChainOp where
  | add (f : HPCFilter)
  | clear
  | toggle (n : String)
  | setEnabled (i : Nat) (e : Bool)

/-- Apply one `HpcChainOp` to a `FilterChainHPC`. -/
def applyHpcChainOp (c : FilterChainHPC) : HpcChainOp → FilterChainHPC
  | .add f => (c.addFilter f).1
  | .clear => c.clear
  | .toggle n => (c.toggle n).1
  | .setEnabled i e => c.setEnabled i e

/-- Apply a sequence of `HpcChainOp`s from left to right. -/
def applyHpcChainOps (c : FilterChainHPC) (ops : List HpcChainOp) : FilterChainHPC :=
  ops.foldl applyHpcChainOp c

theorem toggleFirst_length (fs : List ImageFilter) (n : String) :
    (toggleFirst fs n).1.length = fs.length := by
  induction fs with
  | nil => rfl
  | cons f fs ih =>
    unfold toggleFirst
    split
    · rfl
    · simpa using ih

theorem toggleFirstHpc_length (fs : List HPCFilter) (n : String) :
    (toggleFirstHpc fs n).1.length = fs.length := by
  induction fs with
  | nil => rfl
  | cons f fs ih =>
    unfold toggleFirstHpc
    split
    · rfl
    · simpa using ih

theorem applyChainOp_length_le (c : FilterChain) (op : ChainOp)
    (hc : c.filters.length ≤ MAX_FILTERS) :
    (applyChainOp c op).filters.length ≤ MAX_FILTERS := by
  cases op with
  | add f =>
    simp only [applyChainOp, FilterChain.addFilter]
    split
    · exact hc
    · simp only [List.length_append, List.length_cons, List.length_nil]
      unfold MAX_FILTERS at *
      omega
  | clear => simp [applyChainOp, FilterChain.clear]
  | toggle n =>
    simpa [applyChainOp, FilterChain.toggle, toggleFirst_length] using hc
  | setEnabled i e =>
    simpa [applyChainOp, FilterChain.setEnabled] using hc

theorem applyHpcChainOp_length_le (c : FilterChainHPC) (op : HpcChainOp)
    (hc : c.filters.length ≤ MAX_FILTERS_HPC) :
    (applyHpcChainOp c op).filters.length ≤ MAX_FILTERS_HPC := by
  cases op with
  | add f =>
    simp only [applyHpcChainOp, FilterChainHPC.addFilter]
    split
    · exact hc
    · simp only [List.length_append, List.length_cons, List.length_nil]
      unfold MAX_FILTERS_HPC at *
      omega
  | clear => simp [applyHpcChainOp, FilterChainHPC.clear]
  | toggle n =>
    simpa [applyHpcChainOp, FilterChainHPC.toggle, toggleFirstHpc_length] using hc
  | setEnabled i e =>
    simpa [applyHpcChainOp, FilterChainHPC.setEnabled] using hc

theorem applyChainOps_length_le (ops : List ChainOp) (c : FilterChain)
    (hc : c.filters.length ≤ MAX_FILTERS) :
    (applyChainOps c ops).filters.length ≤ MAX_FILTERS := by
  induction ops generalizing c with
  | nil => exact hc
  | cons op ops ih => exact ih _ (applyChainOp_length_le c op hc)

theorem applyHpcChainOps_length_le (ops : List HpcChainOp) (c : FilterChainHPC)
    (hc : c.filters.length ≤ MAX_FILTERS_HPC) :
    (applyHpcChainOps c ops).filters.length ≤ MAX_FILTERS_HPC := by
  induction ops generalizing c with
  | nil => exact hc
  | cons op ops ih => exact ih _ (applyHpcChainOp_length_le c op hc)

/-- The global `GrayscaleFilter grayscaleFilter` instance
(`FilterChain.hpp` line 555) as a chain entry: name `"Grayscale"`,
`enabled` defaulting to `true`, virtual `process` = the grayscale kernel
(which ignores the dimensions). -/
def grayscaleFilter : ImageFilter :=
  { name := "Grayscale", enabled := true, proc := fun d _ _ => GrayscaleFilter.process d }

/-- The same entry with its `enabled` flag cleared. -/
def disabledGrayscaleFilter : ImageFilter := { grayscaleFilter with enabled := false }

/-- The `("Grayscale", filter_grayscale_hpc, nullptr)` entry registered by
`initFilterChainHPC` (`FilterChainHPC.hpp` line 471). -/
def grayscaleHpcFilter : HPCFilter :=
  { name := "Grayscale", func := some fun d _ _ => filter_grayscale_hpc d, enabled := true }

/-- The same HPC entry with its `enabled` flag cleared. -/
def disabledGrayscaleHpcFilter : HPCFilter := { grayscaleHpcFilter with enabled := false }

/-- A `FilterChain` filled to its capacity of `MAX_FILTERS` entries. -/
def fullChain : FilterChain := { filters := List.replicate 8 grayscaleFilter }

/-- A `FilterChainHPC` filled to its capacity of `MAX_FILTERS_HPC` entries. -/
def fullHpcChain : FilterChainHPC := { filters := List.replicate 8 grayscaleHpcFilter }

/-! ## Claim C9 — fixed capacity is enforced -/

/-- C9: adding a filter to a chain whose length equals the fixed capacity
returns `false` and leaves the chain unchanged (for both the
virtual-dispatch `FilterChain` and the function-pointer `FilterChainHPC`),
and consequently the chain length never exceeds the capacity after any
sequence of add/clear/toggle/setEnabled operations. -/
theorem chain_capacity_enforced (c : FilterChain) (f : ImageFilter)
    (chpc : FilterChainHPC) (g : HPCFilter)
    (hc : c.filters.length = MAX_FILTERS) (hhpc : chpc.filters.length = MAX_FILTERS_HPC)
    (c0 : FilterChain) (ops : List ChainOp) (h0 : c0.filters.length ≤ MAX_FILTERS)
    (c1 : FilterChainHPC) (ops1 : List HpcChainOp)
    (h1 : c1.filters.length ≤ MAX_FILTERS_HPC) :
    c.addFilter f = (c, false) ∧
    chpc.addFilter g = (chpc, false) ∧
    (applyChainOps c0 ops).filters.length ≤ MAX_FILTERS ∧
    (applyHpcChainOps c1 ops1).filters.length ≤ MAX_FILTERS_HPC := by
  refine ⟨?_, ?_, applyChainOps_length_le ops c0 h0, applyHpcChainOps_length_le ops1 c1 h1⟩
  · unfold FilterChain.addFilter
    rw [if_pos (by omega)]
  · unfold FilterChainHPC.addFilter
    rw [if_pos (by omega)]

/-- Witness for C9: both chains filled to capacity reject a further add,
and a small operation sequence keeps the lengths within capacity. -/
theorem chain_capacity_enforced_witness :
    fullChain.addFilter grayscaleFilter = (fullChain, false) ∧
    fullHpcChain.addFilter grayscaleHpcFilter = (fullHpcChain, false) ∧
    (applyChainOps FilterChain.empty
        [ChainOp.add grayscaleFilter, ChainOp.toggle "Grayscale",
         ChainOp.setEnabled 0 true, ChainOp.clear]).filters.length ≤ MAX_FILTERS ∧
    (applyHpcChainOps FilterChainHPC.empty
        [HpcChainOp.add grayscaleHpcFilter,
         HpcChainOp.toggle "Grayscale"]).filters.length ≤ MAX_FILTERS_HPC :=
  chain_capacity_enforced fullChain grayscaleFilter fullHpcChain grayscaleHpcFilter
    rfl rfl FilterChain.empty _ (by decide) FilterChainHPC.empty _ (by decide)

/-! ## Claim C10 — disabled filters are no-ops -/

theorem foldl_all_disabled (fs : List ImageFilter) (d : List Nat) (w h : Nat)
    (hdis : ∀ f ∈ fs, f.enabled = false) :
    fs.foldl (fun d f => if f.enabled then f.proc d w h else d) d = d := by
  induction fs generalizing d with
  | nil => rfl
  | cons f fs ih =>
    have hf : f.enabled = false := hdis f (by simp)
    simp only [List.foldl_cons, hf, Bool.false_eq_true, if_false]
    exact ih d fun g hg => hdis g (by simp [hg])

theorem foldl_all_disabled_hpc (fs : List HPCFilter) (d : List Nat) (w h : Nat)
    (hdis : ∀ f ∈ fs, f.enabled = false) :
    fs.foldl
      (fun d f => match f.func with
        | some fn => if f.enabled then fn d w h else d
        | none => d)
      d = d := by
  induction fs generalizing d with
  | nil => rfl
  | cons f fs ih =>
    have hf : f.enabled = false := hdis f (by simp)
    have hstep :
        (match f.func with
          | some fn => if f.enabled then fn d w h else d
          | none => d) = d := by
      cases f.func with
      | none => rfl
      | some fn => simp [hf]
    rw [List.foldl_cons, hstep]
    exact ih d fun g hg => hdis g (by simp [hg])

/-- C10: when every filter of a chain is disabled, running `process` is a
no-op: the buffer after the call is byte-for-byte the buffer before it
(for both the virtual-dispatch `FilterChain` and the function-pointer
`FilterChainHPC`); in particular a disabled filter contributes none of its
effects. -/
theorem disabled_chain_is_noop (c : FilterChain) (chpc : FilterChainHPC)
    (data : List Nat) (w h : Nat)
    (hdis : ∀ f ∈ c.filters, f.enabled = false)
    (hdisHpc : ∀ f ∈ chpc.filters, f.enabled = false) :
    c.process data w h = data ∧ chpc.process data w h = data :=
  ⟨foldl_all_disabled c.filters data w h hdis,
   foldl_all_disabled_hpc chpc.filters data w h hdisHpc⟩

/-- Witness for C10: chains holding one disabled grayscale filter each
leave a one-pixel buffer untouched. -/
theorem disabled_chain_is_noop_witness :
    FilterChain.process { filters := [disabledGrayscaleFilter] } [2080] 1 1 = [2080] ∧
    FilterChainHPC.process { filters := [disabledGrayscaleHpcFilter] } [2080] 1 1 =
      [2080] :=
  disabled_chain_is_noop { filters := [disabledGrayscaleFilter] }
    { filters := [disabledGrayscaleHpcFilter] } [2080] 1 1
    (by intro f hf
        simp only [List.mem_singleton] at hf
        subst hf
        rfl)
    (by intro f hf
        simp only [List.mem_singleton] at hf
        subst hf
        rfl)
